import Mathlib

/-!
Shallow embedding of the route-funding orchestration
(src/swaps/get_routes_for_funding.js) and of the balance aggregation step
(src/balances/get_balance.js) of the balanceofsatoshis repository.

Collaborator calls (wallet version query, probe executor, multi-path prober,
channel accessor, route synthesizer) are modelled by an environment record
supplying their outcomes; the orchestration itself is translated statement by
statement from the source.  JavaScript truthiness of optional arguments is made
explicit through the jsTruthy functions.
-/

namespace BosFund

/-- A reported failure: numeric class and symbolic reason, as in the source's
`cbk([code, reason])` convention. -/
structure Err where
  code : Nat
  reason : String
deriving DecidableEq, Repr

/-- JS truthiness of an optional number: undefined and 0 are falsy. -/
def jsTruthyNat : Option Nat → Bool
  | none => false
  | some n => n != 0

/-- JS truthiness of an optional string: undefined and the empty string are falsy. -/
def jsTruthyStr : Option String → Bool
  | none => false
  | some s => s != ""

/-- JS `o || d` for an optional numeric argument with default `d`. -/
def jsOrNat (o : Option Nat) (d : Nat) : Nat :=
  if jsTruthyNat o then o.getD d else d

/-- JS `s > m` where `m` may be undefined (`n > undefined` is false in JS). -/
def jsGtOptNat (s : Nat) (m : Option Nat) : Bool :=
  match m with
  | some v => decide (v < s)
  | none => false

/-- `defaultMaxPaths` from the source. -/
def defaultMaxPaths : Nat := 7

/-- A payment route; only the fee field is inspected by the orchestration. -/
structure Route where
  fee : Nat
deriving DecidableEq, Repr

/-- Result of the single-path probe executor: possibly a route. -/
structure SingleRes where
  route : Option Route
deriving DecidableEq, Repr

/-- One successful multi-path probe result. -/
structure Probe where
  latency_ms : Nat
  route_maximum : Nat
  success : List Nat
  relays : List Nat
deriving DecidableEq, Repr

/-- One response of the multi-path prober: a hard error, or a soft response
carrying an optional probe and an optional terminal error reason. -/
inductive ProbeResp where
  | hard (e : Err)
  | soft (probe : Option Probe) (error : Option Err)
deriving DecidableEq, Repr

/-- Per-probe summary handed to the route synthesizer. -/
structure ProbeSummary where
  channels : List Nat
  liquidity : Nat
  relays : List Nat
deriving DecidableEq, Repr

/-- Successful output of the multi-path accumulator. -/
structure Limits where
  latency_ms : Nat
  probes : List ProbeSummary
  routes_max : Nat
deriving DecidableEq, Repr

/-- Outcome of the asyncWhilst accumulation loop: ended normally (cap reached
or error recorded), aborted by a hard prober error, or starved of further
prober responses (the JS loop would still be awaiting the prober). -/
inductive LoopOut where
  | ended (probes : List Probe) (error : Option Err)
  | hard (e : Err) (probes : List Probe)
  | starved (probes : List Probe) (error : Option Err)
deriving DecidableEq, Repr

/-- The asyncWhilst loop of getMultiLimits: the test stops when the probe count
reaches the cap or an error has been recorded; each iteration consumes one
prober response, pushing its probe and recording its error when present.
Returns the loop outcome and the number of iterations performed. -/
def loopRun (cap : Nat) (resps : List ProbeResp) (probes : List Probe)
    (err : Option Err) : LoopOut × Nat :=
  if probes.length == cap || err.isSome then
    (LoopOut.ended probes err, 0)
  else
    match resps with
    | [] => (LoopOut.starved probes err, 0)
    | ProbeResp.hard e :: _ => (LoopOut.hard e probes, 1)
    | ProbeResp.soft p e :: rest =>
      let r := loopRun cap rest (probes ++ p.toList) (if e.isSome then e else err)
      (r.1, r.2 + 1)

/-- `args.max_paths || defaultMaxPaths` from the source. -/
def capOf (maxPaths : Option Nat) : Nat := jsOrNat maxPaths defaultMaxPaths

/-- Per-probe summary construction from the source's probes.map. -/
def summarize (p : Probe) : ProbeSummary :=
  ⟨p.success, p.route_maximum, p.relays⟩

/-- Post-loop success value: summed latency, per-probe summaries, summed
route maxima. -/
def mkLimits (probes : List Probe) : Limits :=
  ⟨(probes.map Probe.latency_ms).sum, probes.map summarize,
    (probes.map Probe.route_maximum).sum⟩

/-- getMultiLimits: skipped (yielding no value) when multi-path is unsupported
or an out_through peer is pinned; otherwise runs the accumulation loop and
reports its outcome.  The first component is `none` when the loop starved,
`some (error e)` on failure, `some (ok v)` on completion; the second component
counts multi-path prober invocations. -/
def getMultiLimits (isSupported : Bool) (outThrough : Option String)
    (maxPaths : Option Nat) (resps : List ProbeResp) :
    Option (Except Err (Option Limits)) × Nat :=
  if !isSupported then (some (Except.ok none), 0)
  else if jsTruthyStr outThrough then (some (Except.ok none), 0)
  else
    match loopRun (capOf maxPaths) resps [] none with
    | (LoopOut.hard e _, n) => (some (Except.error e), n)
    | (LoopOut.starved _ _, n) => (none, n)
    | (LoopOut.ended probes err, n) =>
      if probes.isEmpty then
        match err with
        | some e => (some (Except.error e), n)
        | none => (some (Except.ok none), n)
      else (some (Except.ok (some (mkLimits probes))), n)

/-- Output of the capability check. -/
structure MultiSupport where
  is_multi_supported : Bool
deriving DecidableEq, Repr

/-- getMultiSupport: the wallet version query outcome is mapped to a boolean;
the step itself never errors (`cbk(null, {is_multi_supported: !err})`). -/
def getMultiSupport (q : Except Err Unit) : Except Err MultiSupport :=
  Except.ok ⟨match q with | Except.ok _ => true | Except.error _ => false⟩

/-- The routing request arguments, with optionality mirroring the source. -/
structure Args where
  cltv_delta : Option Nat
  destination : Option String
  lnd : Bool
  logger : Bool
  max_fee : Option Nat
  max_paths : Option Nat
  out_through : Option String
  tokens : Option Nat

/-- Arguments handed to the route synthesizer (multiPathPayment). -/
structure SynthArgs where
  channels : List Nat
  cltv_delta : Nat
  destination : String
  height : Nat
  maxAmount : Nat
  mtokens : Nat
  probes : List ProbeSummary

/-- Environment of collaborator outcomes for one request. -/
structure Env where
  walletVersionQuery : Except Err Unit
  probeOutcome : Except Err SingleRes
  multiResps : List ProbeResp
  channelData : Nat → Nat
  height : Nat
  routeSynth : SynthArgs → List Route

/-- A collaborator invocation, for tracking which network calls were made. -/
inductive Call where
  | walletVersion
  | executeProbe
  | multiProbe
  | getChannel (id : Nat)
  | walletInfo
  | synthesize
deriving DecidableEq, Repr

/-- The validate step of the source, check for check in order. -/
def validate (args : Args) : Except Err Unit :=
  if !jsTruthyNat args.cltv_delta then
    Except.error ⟨400, "ExpectedCltvDeltaToGetRoutesForFunding"⟩
  else if !jsTruthyStr args.destination then
    Except.error ⟨400, "ExpectedDestinationToGetRoutesForFunding"⟩
  else if !args.lnd then
    Except.error ⟨400, "ExpectedLndToGetRoutesForFunding"⟩
  else if !args.logger then
    Except.error ⟨400, "ExpectedLoggerToGetRoutesForFunding"⟩
  else if !jsTruthyNat args.tokens then
    Except.error ⟨400, "ExpectedTokensToGetRoutesForFunding"⟩
  else Except.ok ()

/-- First-occurrence deduplication, as a JS Set constructed from an array. -/
def uniqJS (l : List Nat) : List Nat :=
  l.foldl (fun acc x => if x ∈ acc then acc else acc ++ [x]) []

/-- tokensAsMtokens from the source (tokens times 1000). -/
def tokensAsMtokens (tokens : Nat) : Nat := tokens * 1000

/-- getMultiPaths: contributes nothing when the accumulator yielded nothing or
its capacity is below the requested amount; otherwise fetches each distinct
referenced channel, the wallet height, and invokes the route synthesizer. -/
def getMultiPaths (args : Args) (env : Env) (limits : Option Limits) :
    Option (List Route) × List Call :=
  match limits with
  | none => (none, [])
  | some lim =>
    if lim.routes_max < args.tokens.getD 0 then (none, [])
    else
      let ids := uniqJS (lim.probes.map ProbeSummary.channels).flatten
      let routes := env.routeSynth
        { channels := ids.map env.channelData
          cltv_delta := args.cltv_delta.getD 0
          destination := args.destination.getD ""
          height := env.height
          maxAmount := lim.routes_max
          mtokens := tokensAsMtokens (args.tokens.getD 0)
          probes := lim.probes }
      (some routes, ids.map Call.getChannel ++ [Call.walletInfo, Call.synthesize])

/-- The final value: total fee plus the route list. -/
structure RoutingResult where
  fee : Nat
  routes : List Route
deriving DecidableEq, Repr

/-- Sum of the per-route fees (sumOf over paths.map fee). -/
def sumFees (paths : List Route) : Nat := (paths.map Route.fee).sum

/-- `getMultiPaths || [getSinglePath.route].filter(!!n)` from the result step.
Note that in JS an empty array is truthy, so an empty multi-path route list is
chosen as is, with no fallback to the single path. -/
def chosenPaths (multiPaths : Option (List Route)) (single : SingleRes) :
    List Route :=
  match multiPaths with
  | some ps => ps
  | none => single.route.toList

/-- The result step: fail 503 when no path was chosen or the summed fee
exceeds the fee budget, otherwise return the summed fee and the paths. -/
def resultStep (maxFee : Option Nat) (multiPaths : Option (List Route))
    (single : SingleRes) : Except Err RoutingResult :=
  let paths := chosenPaths multiPaths single
  if paths.isEmpty || jsGtOptNat (sumFees paths) maxFee then
    Except.error ⟨503, "FailedToFindAPathToFundSwapOffchain"⟩
  else
    Except.ok ⟨sumFees paths, paths⟩

/-- Outcome of one request: the final value (none when the accumulation loop
is still awaiting prober responses) and the collaborator calls made. -/
structure Outcome where
  result : Option (Except Err RoutingResult)
  calls : List Call
deriving Repr

/-- The full asyncAuto pipeline.  validate gates everything; getMultiSupport
and getSinglePath run after it; getMultiLimits depends on both, so a failing
single-path probe aborts the request before any multi-path probing; the
result step consumes getMultiPaths and getSinglePath. -/
def getRoutesForFunding (args : Args) (env : Env) : Outcome :=
  match validate args with
  | Except.error e => ⟨some (Except.error e), []⟩
  | Except.ok _ =>
    match getMultiSupport env.walletVersionQuery with
    | Except.error e => ⟨some (Except.error e), [Call.walletVersion]⟩
    | Except.ok support =>
      match env.probeOutcome with
      | Except.error _ =>
        ⟨some (Except.error ⟨503, "UnexpectedErrorFindingRouteToFundSwap"⟩),
          [Call.walletVersion, Call.executeProbe]⟩
      | Except.ok single =>
        let ml := getMultiLimits support.is_multi_supported args.out_through
          args.max_paths env.multiResps
        let log := [Call.walletVersion, Call.executeProbe] ++
          List.replicate ml.2 Call.multiProbe
        match ml.1 with
        | none => ⟨none, log⟩
        | some (Except.error e) => ⟨some (Except.error e), log⟩
        | some (Except.ok limits) =>
          let mp := getMultiPaths args env limits
          ⟨some (resultStep args.max_fee mp.1 single), log ++ mp.2⟩

/-- A well-formed request with every validated field present and a 100-token
fee budget. -/
def argsBase : Args := ⟨some 40, some "D", true, true, some 100, none, none, some 10⟩

/-- A request identical to argsBase except that max_fee is absent. -/
def argsNoFee : Args := ⟨some 40, some "D", true, true, none, none, none, some 10⟩

/-- A well-formed request that pins an out_through peer. -/
def argsPinned : Args := ⟨some 40, some "D", true, true, some 100, none, some "P", some 10⟩

/-- A probe returning 100 tokens of liquidity over channel 8. -/
def probeA : Probe := ⟨10, 100, [8], [2]⟩

/-- Environment: wallet version query fails (multi-path unsupported) and the
single-path probe finds a route of fee 5. -/
def envSimple : Env :=
  ⟨Except.error ⟨503, "NoVersion"⟩, Except.ok ⟨some ⟨5⟩⟩, [], fun _ => 0, 0,
    fun _ => []⟩

/-- Environment: multi-path supported, single-path route of fee 5, two prober
responses (one probe then a soft terminal reason), and a synthesizer that
yields an empty route list. -/
def envC2 : Env :=
  ⟨Except.ok (), Except.ok ⟨some ⟨5⟩⟩,
   [ProbeResp.soft (some probeA) none, ProbeResp.soft none (some ⟨503, "NoMore"⟩)],
   fun _ => 0, 0, fun _ => []⟩

/-- Environment: multi-path supported with usable prober responses and a
synthesizer yielding a cheap route, but a failing single-path probe. -/
def envC3 : Env :=
  ⟨Except.ok (), Except.error ⟨503, "ProbeBoom"⟩,
   [ProbeResp.soft (some probeA) none, ProbeResp.soft none (some ⟨503, "NoMore"⟩)],
   fun _ => 0, 0, fun _ => [⟨3⟩]⟩

end BosFund

namespace BosBalance

/-- The channel fields used by the balance step. -/
structure ChannelInfo where
  is_partner_initiated : Option Bool
  commit_transaction_fee : Int
deriving DecidableEq, Repr

/-- Responses of the four balance queries. -/
structure BalanceData where
  chain_balance : Int
  channel_balance : Int
  pending_balance : Int
  pending_chain_balance : Int
  channels : List ChannelInfo
deriving DecidableEq, Repr

/-- The optional arguments of getBalance used by the balance step. -/
structure BalanceArgs where
  above : Option Int
  below : Option Int
  is_confirmed : Bool
  is_offchain_only : Bool
  is_onchain_only : Bool
deriving DecidableEq, Repr

/-- Commit fee burden: fees of channels whose is_partner_initiated is strictly
equal to false (undefined does not count). -/
def futureCommitFees (channels : List ChannelInfo) : Int :=
  ((channels.filter fun n => n.is_partner_initiated == some false).map
    fun n => n.commit_transaction_fee).sum

/-- The balance step of getBalance, parameterized by the balanceFromTokens
helper (a separate module); returns (balance, channel_balance). -/
def balanceStep (bft : Option Int → Option Int → List Int → Int)
    (args : BalanceArgs) (data : BalanceData) : Int × Int :=
  let futureFees := futureCommitFees data.channels
  let pendingChain :=
    if args.is_offchain_only || args.is_confirmed then 0
    else data.pending_chain_balance
  let pendingChanToks :=
    if args.is_onchain_only || args.is_confirmed then 0
    else data.pending_balance
  let balances : List Int :=
    [if args.is_offchain_only then 0 else data.chain_balance,
     if args.is_onchain_only then 0 else data.channel_balance,
     if args.is_onchain_only then 0 else -futureFees,
     pendingChain,
     pendingChanToks]
  (bft args.above args.below balances, data.channel_balance - futureFees)

end BosBalance

namespace BosFund

/-- The validate step accepts exactly the requests whose five checked fields
are all truthy; max_fee is not among them. -/
theorem validate_ok_iff (args : Args) :
    validate args = Except.ok () ↔
      (jsTruthyNat args.cltv_delta = true ∧ jsTruthyStr args.destination = true ∧
        args.lnd = true ∧ args.logger = true ∧ jsTruthyNat args.tokens = true) := by
  unfold validate
  cases h1 : jsTruthyNat args.cltv_delta <;>
    cases h2 : jsTruthyStr args.destination <;>
      cases h3 : args.lnd <;>
        cases h4 : args.logger <;>
          cases h5 : jsTruthyNat args.tokens <;>
            simp [h1, h2, h3, h4, h5]

/-- Every error produced by the validate step carries the numeric class 400. -/
theorem validate_error_code (args : Args) (e : Err)
    (h : validate args = Except.error e) : e.code = 400 := by
  unfold validate at h
  repeat' split at h
  all_goals simp_all
  all_goals (cases h; rfl)

/-- C1 (amended): a request missing the CLTV delta, the destination, or the
amount fails with a class-400 validation error before any collaborator call;
the fee budget (max_fee) is not among the validated fields. -/
theorem C1_missing_core_field_rejected_before_network (args : Args) (env : Env)
    (h : jsTruthyNat args.cltv_delta = false ∨ jsTruthyStr args.destination = false ∨
      jsTruthyNat args.tokens = false) :
    ∃ e : Err, getRoutesForFunding args env = ⟨some (Except.error e), []⟩ ∧
      e.code = 400 := by
  have hno : validate args ≠ Except.ok () := by
    intro hok
    rw [validate_ok_iff] at hok
    rcases h with h | h | h <;> simp [h] at hok
  cases hv : validate args with
  | ok u => cases u; exact absurd hv hno
  | error e =>
    refine ⟨e, ?_, validate_error_code args e hv⟩
    unfold getRoutesForFunding
    rw [hv]

/-- C1 witness: a concrete request missing the CLTV delta is rejected with a
400 error and an empty call log. -/
theorem C1_missing_core_field_witness :
    ∃ e : Err,
      getRoutesForFunding ⟨none, some "D", true, true, some 100, none, none, some 10⟩
          envSimple = ⟨some (Except.error e), []⟩ ∧ e.code = 400 :=
  C1_missing_core_field_rejected_before_network
    ⟨none, some "D", true, true, some 100, none, none, some 10⟩ envSimple (Or.inl rfl)

/-- C1 counterexample: a request whose max_fee is absent, all other fields
present, is not rejected with a 400 error: the wallet and probe collaborators
are invoked and the request even succeeds. -/
theorem C1_counterexample :
    argsNoFee.max_fee = none ∧
    getRoutesForFunding argsNoFee envSimple =
      ⟨some (Except.ok ⟨5, [⟨5⟩]⟩), [Call.walletVersion, Call.executeProbe]⟩ :=
  ⟨rfl, rfl⟩

/-- C2 (amended): when the multi-path branch ran and the synthesizer produced
an empty route list, the result step fails with the 503 error; it does not
fall back to the single-path route (an empty JS array is truthy). -/
theorem C2_empty_synthesis_is_failure_not_fallback (m : Nat) (single : SingleRes) :
    resultStep (some m) (some []) single =
      Except.error ⟨503, "FailedToFindAPathToFundSwapOffchain"⟩ := rfl

/-- C2 counterexample: the multi-path branch runs and the synthesizer returns
zero routes while the single-path branch holds a route of fee 5 within the
budget of 100; the request fails with the 503 error instead of falling back to
that single-path route. -/
theorem C2_counterexample :
    envC2.probeOutcome = Except.ok ⟨some ⟨5⟩⟩ ∧ argsBase.max_fee = some 100 ∧
    getRoutesForFunding argsBase envC2 =
      ⟨some (Except.error ⟨503, "FailedToFindAPathToFundSwapOffchain"⟩),
       [Call.walletVersion, Call.executeProbe, Call.multiProbe, Call.multiProbe,
        Call.getChannel 8, Call.walletInfo, Call.synthesize]⟩ :=
  ⟨rfl, rfl, rfl⟩

/-- C3 (amended): a hard error of the single-path probe executor aborts the
whole request with the 503 UnexpectedErrorFindingRouteToFundSwap error; the
multi-path prober is never invoked. -/
theorem C3_single_path_hard_error_aborts (args : Args) (env : Env) (e : Err)
    (hval : validate args = Except.ok ())
    (hprobe : env.probeOutcome = Except.error e) :
    getRoutesForFunding args env =
      ⟨some (Except.error ⟨503, "UnexpectedErrorFindingRouteToFundSwap"⟩),
       [Call.walletVersion, Call.executeProbe]⟩ := by
  unfold getRoutesForFunding
  rw [hval]
  cases hq : env.walletVersionQuery <;> simp [getMultiSupport, hprobe]

/-- C3 witness: concrete aborted request via the amended theorem. -/
theorem C3_single_path_hard_error_witness :
    getRoutesForFunding argsBase envC3 =
      ⟨some (Except.error ⟨503, "UnexpectedErrorFindingRouteToFundSwap"⟩),
       [Call.walletVersion, Call.executeProbe]⟩ :=
  C3_single_path_hard_error_aborts argsBase envC3 ⟨503, "ProbeBoom"⟩ rfl rfl

/-- C3 counterexample: although the environment would let the multi-path
branch produce a usable route, a failing single-path probe aborts the request
and the multi-path prober is never called, contradicting the claim that the
multi-path branch is still attempted. -/
theorem C3_counterexample :
    getRoutesForFunding argsBase envC3 =
      ⟨some (Except.error ⟨503, "UnexpectedErrorFindingRouteToFundSwap"⟩),
       [Call.walletVersion, Call.executeProbe]⟩ ∧
    Call.multiProbe ∉ (getRoutesForFunding argsBase envC3).calls :=
  ⟨rfl, by decide⟩

/-- C4: the result step fails with the 503 unaffordable error exactly when the
chosen route set is empty or its summed fee exceeds the budget, and otherwise
returns the summed fee with the chosen routes. -/
theorem C4_fee_budget_enforced (m : Nat) (mp : Option (List Route))
    (single : SingleRes) :
    (chosenPaths mp single = [] ∨ m < sumFees (chosenPaths mp single) →
      resultStep (some m) mp single =
        Except.error ⟨503, "FailedToFindAPathToFundSwapOffchain"⟩) ∧
    (chosenPaths mp single ≠ [] → sumFees (chosenPaths mp single) ≤ m →
      resultStep (some m) mp single =
        Except.ok ⟨sumFees (chosenPaths mp single), chosenPaths mp single⟩) := by
  constructor
  · intro h
    rcases h with h | h
    · simp [resultStep, h]
    · simp [resultStep, jsGtOptNat, h]
  · intro h1 h2
    have he : (chosenPaths mp single).isEmpty = false := by
      simpa [List.isEmpty_iff] using h1
    simp [resultStep, jsGtOptNat, he, Nat.not_lt.mpr h2]

/-- C4 witness: with a single-path route of fee 5 under a budget of 10, the
result is that route with fee 5. -/
theorem C4_fee_budget_witness :
    resultStep (some 10) none ⟨some ⟨5⟩⟩ = Except.ok ⟨5, [⟨5⟩]⟩ :=
  (C4_fee_budget_enforced 10 none ⟨some ⟨5⟩⟩).2 (by decide) (by decide)

end BosFund

namespace BosBalance

/-- C10: the returned channel_balance equals the reported channel balance
minus the commit fees of exactly the channels whose is_partner_initiated is
strictly false, and it does not depend on the above/below/is_confirmed/
is_onchain_only/is_offchain_only options nor on the balanceFromTokens helper. -/
theorem C10_channel_balance_formula
    (bft bft2 : Option Int → Option Int → List Int → Int)
    (a a2 : BalanceArgs) (d : BalanceData) :
    (balanceStep bft a d).2 =
      d.channel_balance -
        ((d.channels.filter fun n => n.is_partner_initiated == some false).map
          fun n => n.commit_transaction_fee).sum ∧
    (balanceStep bft a d).2 = (balanceStep bft2 a2 d).2 :=
  ⟨rfl, rfl⟩

end BosBalance

namespace BosFund

/-- The loop performs no iteration when the cap is reached or an error has
been recorded. -/
theorem loopRun_stop (cap : Nat) (resps : List ProbeResp) (probes : List Probe)
    (err : Option Err) (h : (probes.length == cap || err.isSome) = true) :
    loopRun cap resps probes err = (LoopOut.ended probes err, 0) := by
  unfold loopRun
  simp [h]

/-- With no further responses and the loop condition still true, the loop is
starved. -/
theorem loopRun_nil (cap : Nat) (probes : List Probe) (err : Option Err)
    (h : (probes.length == cap || err.isSome) = false) :
    loopRun cap [] probes err = (LoopOut.starved probes err, 0) := by
  unfold loopRun
  simp [h]

/-- A hard prober error aborts the loop after that single iteration. -/
theorem loopRun_hard_step (cap : Nat) (e : Err) (rest : List ProbeResp)
    (probes : List Probe) (h : (probes.length == cap) = false) :
    loopRun cap (ProbeResp.hard e :: rest) probes none =
      (LoopOut.hard e probes, 1) := by
  unfold loopRun
  simp [h]

/-- One soft iteration appends the optional probe, records the optional
error, and recurses. -/
theorem loopRun_soft_step (cap : Nat) (p : Option Probe) (e : Option Err)
    (rest : List ProbeResp) (probes : List Probe) (err : Option Err)
    (h : (probes.length == cap || err.isSome) = false) :
    loopRun cap (ProbeResp.soft p e :: rest) probes err =
      ((loopRun cap rest (probes ++ p.toList) (if e.isSome then e else err)).1,
       (loopRun cap rest (probes ++ p.toList) (if e.isSome then e else err)).2 + 1) := by
  conv_lhs => rw [loopRun]
  simp [h]

/-- If the loop starts within the cap and ends normally, the collected probes
still number at most the cap. -/
theorem loopRun_ended_length (cap : Nat) (resps : List ProbeResp) :
    ∀ (probes ps : List Probe) (err e : Option Err) (n : Nat),
      probes.length ≤ cap →
      loopRun cap resps probes err = (LoopOut.ended ps e, n) → ps.length ≤ cap := by
  induction resps with
  | nil =>
    intro probes ps err e n hle hrun
    by_cases h : (probes.length == cap || err.isSome) = true
    · rw [loopRun_stop cap [] probes err h] at hrun
      simp at hrun
      obtain ⟨⟨h1, -⟩, -⟩ := hrun
      rw [← h1]
      exact hle
    · rw [Bool.not_eq_true] at h
      rw [loopRun_nil cap probes err h] at hrun
      simp at hrun
  | cons r rest ih =>
    intro probes ps err e n hle hrun
    by_cases h : (probes.length == cap || err.isSome) = true
    · rw [loopRun_stop cap (r :: rest) probes err h] at hrun
      simp at hrun
      obtain ⟨⟨h1, -⟩, -⟩ := hrun
      rw [← h1]
      exact hle
    · rw [Bool.not_eq_true, Bool.or_eq_false_iff] at h
      obtain ⟨hx, hy⟩ := h
      have herrnone : err = none := by
        cases err with
        | none => rfl
        | some v => simp at hy
      subst herrnone
      cases r with
      | hard e2 =>
        rw [loopRun_hard_step cap e2 rest probes hx] at hrun
        simp at hrun
      | soft p e2 =>
        have hcond : (probes.length == cap || (none : Option Err).isSome) = false := by
          simp [hx]
        rw [loopRun_soft_step cap p e2 rest probes none hcond] at hrun
        have hlt : probes.length < cap := by
          have : probes.length ≠ cap := by simpa using hx
          omega
        have hle2 : (probes ++ p.toList).length ≤ cap := by
          cases p <;> simp <;> omega
        simp at hrun
        obtain ⟨h1, -⟩ := hrun
        have hL : loopRun cap rest (probes ++ p.toList) (if e2.isSome then e2 else none) =
            (LoopOut.ended ps e,
             (loopRun cap rest (probes ++ p.toList) (if e2.isSome then e2 else none)).2) := by
          rw [← h1]
        exact ih (probes ++ p.toList) ps (if e2.isSome then e2 else none) e _ hle2 hL

/-- When an out_through peer is pinned, getMultiLimits yields no value and
performs no probe for either capability outcome. -/
theorem getMultiLimits_pinned (b : Bool) (ot : Option String) (mp : Option Nat)
    (resps : List ProbeResp) (hot : jsTruthyStr ot = true) :
    getMultiLimits b ot mp resps = (some (Except.ok none), 0) := by
  cases b <;> simp [getMultiLimits, hot]

/-- C5: the accumulator never reports more probe summaries than the path-count
cap (default 7); once a soft failure is recorded the loop performs no further
iteration; a hard prober error ends the loop with that very iteration. -/
theorem C5_accumulator_cap_and_stopping (maxPaths : Option Nat)
    (outThrough : Option String) (resps rest : List ProbeResp)
    (probes : List Probe) (err : Option Err) (e : Err) :
    (∀ lim, (getMultiLimits true outThrough maxPaths resps).1 =
        some (Except.ok (some lim)) → lim.probes.length ≤ capOf maxPaths) ∧
    (err.isSome = true →
      loopRun (capOf maxPaths) rest probes err = (LoopOut.ended probes err, 0)) ∧
    ((probes.length == capOf maxPaths) = false →
      loopRun (capOf maxPaths) (ProbeResp.hard e :: rest) probes none =
        (LoopOut.hard e probes, 1)) ∧
    capOf none = 7 := by
  refine ⟨?_, ?_, ?_, rfl⟩
  · intro lim hlim
    by_cases hot : jsTruthyStr outThrough = true
    · simp [getMultiLimits, hot] at hlim
    · rw [Bool.not_eq_true] at hot
      rcases hloop : loopRun (capOf maxPaths) resps [] none with ⟨out, n⟩
      cases out with
      | ended ps e2 =>
        by_cases hemp : ps.isEmpty = true
        · cases e2 <;> simp [getMultiLimits, hot, hloop, hemp] at hlim
        · rw [Bool.not_eq_true] at hemp
          simp [getMultiLimits, hot, hloop, hemp] at hlim
          have hlen : ps.length ≤ capOf maxPaths :=
            loopRun_ended_length (capOf maxPaths) resps [] ps none e2 n
              (by simp) hloop
          rw [← hlim]
          simpa [mkLimits, summarize] using hlen
      | hard e2 ps => simp [getMultiLimits, hot, hloop] at hlim
      | starved ps e2 => simp [getMultiLimits, hot, hloop] at hlim
  · intro herr
    exact loopRun_stop _ _ _ _ (by simp [herr])
  · intro hlen
    exact loopRun_hard_step _ _ _ _ hlen

/-- C5 witness: a recorded error stops the loop immediately, and a hard error
ends it after its own iteration, at concrete inputs. -/
theorem C5_accumulator_cap_witness :
    loopRun (capOf none) [] [] (some ⟨503, "NoMore"⟩) =
      (LoopOut.ended [] (some ⟨503, "NoMore"⟩), 0) ∧
    loopRun (capOf none) [ProbeResp.hard ⟨503, "HardStop"⟩] [] none =
      (LoopOut.hard ⟨503, "HardStop"⟩ [], 1) :=
  ⟨(C5_accumulator_cap_and_stopping none none [] [] []
      (some ⟨503, "NoMore"⟩) ⟨503, "HardStop"⟩).2.1 rfl,
   (C5_accumulator_cap_and_stopping none none [] [] []
      (some ⟨503, "NoMore"⟩) ⟨503, "HardStop"⟩).2.2.1 rfl⟩

/-- C6 (amended): when the loop ends without a hard error, the accumulator
fails with the last recorded reason if no probe was collected and otherwise
succeeds with summed latency, summed maxima and one summary per probe; a hard
error, however, fails the accumulator even when probes were collected. -/
theorem C6_accumulator_post_loop (outThrough : Option String)
    (maxPaths : Option Nat) (resps : List ProbeResp) (ps : List Probe)
    (err : Option Err) (e : Err) (hot : jsTruthyStr outThrough = false) :
    ((loopRun (capOf maxPaths) resps [] none).1 = LoopOut.ended [] (some e) →
      (getMultiLimits true outThrough maxPaths resps).1 = some (Except.error e)) ∧
    ((loopRun (capOf maxPaths) resps [] none).1 = LoopOut.ended ps err → ps ≠ [] →
      (getMultiLimits true outThrough maxPaths resps).1 =
        some (Except.ok (some ⟨(ps.map Probe.latency_ms).sum, ps.map summarize,
          (ps.map Probe.route_maximum).sum⟩))) ∧
    ((loopRun (capOf maxPaths) resps [] none).1 = LoopOut.hard e ps →
      (getMultiLimits true outThrough maxPaths resps).1 = some (Except.error e)) := by
  rcases hloop : loopRun (capOf maxPaths) resps [] none with ⟨out, n⟩
  refine ⟨?_, ?_, ?_⟩
  · intro h
    simp at h
    subst h
    simp [getMultiLimits, hot, hloop]
  · intro h hne
    simp at h
    subst h
    have hemp : ps.isEmpty = false := by simpa [List.isEmpty_iff] using hne
    simp [getMultiLimits, hot, hloop, hemp, mkLimits]
  · intro h
    simp at h
    subst h
    simp [getMultiLimits, hot, hloop]

/-- C6 witness: one probe then a soft failure yields success with latency 10,
routes_max 100 and one summary. -/
theorem C6_accumulator_witness :
    (getMultiLimits true none none
        [ProbeResp.soft (some probeA) none,
         ProbeResp.soft none (some ⟨503, "NoMore"⟩)]).1 =
      some (Except.ok (some ⟨10, [⟨[8], 100, [2]⟩], 100⟩)) :=
  (C6_accumulator_post_loop none none
      [ProbeResp.soft (some probeA) none,
       ProbeResp.soft none (some ⟨503, "NoMore"⟩)]
      [probeA] (some ⟨503, "NoMore"⟩) ⟨503, "NoMore"⟩ rfl).2.1 rfl (by decide)

/-- C6 counterexample: a hard error on the second iteration fails the
accumulator although one probe had already been collected, refuting the claim
that ending with at least one probe always succeeds. -/
theorem C6_counterexample :
    loopRun 7 [ProbeResp.soft (some probeA) none, ProbeResp.hard ⟨503, "HardStop"⟩]
        [] none = (LoopOut.hard ⟨503, "HardStop"⟩ [probeA], 2) ∧
    (getMultiLimits true none none
        [ProbeResp.soft (some probeA) none, ProbeResp.hard ⟨503, "HardStop"⟩]).1 =
      some (Except.error ⟨503, "HardStop"⟩) :=
  ⟨rfl, rfl⟩

/-- C7: when the accumulator succeeded but its capacity is below the amount,
the multi-path step contributes nothing and makes no channel or synthesizer
call, and the final selection falls back to the single-path route. -/
theorem C7_insufficient_capacity_contributes_nothing (args : Args) (env : Env)
    (lim : Limits) (single : SingleRes) (r : Route) (m : Nat)
    (hcap : lim.routes_max < args.tokens.getD 0) :
    getMultiPaths args env (some lim) = (none, []) ∧
    chosenPaths none single = single.route.toList ∧
    (single.route = some r → r.fee ≤ m →
      resultStep (some m) none single = Except.ok ⟨r.fee, [r]⟩) := by
  refine ⟨?_, rfl, ?_⟩
  · simp [getMultiPaths, hcap]
  · intro hr hfee
    have hgt : jsGtOptNat r.fee (some m) = false := by
      simp [jsGtOptNat]
      omega
    simp [resultStep, chosenPaths, hr, sumFees, hgt]

/-- C7 witness: capacity 5 against requested 10 contributes nothing; the
single route of fee 5 is returned under a budget of 100. -/
theorem C7_insufficient_capacity_witness :
    getMultiPaths argsBase envSimple (some ⟨0, [], 5⟩) = (none, []) ∧
    chosenPaths none (⟨some ⟨5⟩⟩ : SingleRes) = [⟨5⟩] ∧
    ((⟨some ⟨5⟩⟩ : SingleRes).route = some ⟨5⟩ → Route.fee ⟨5⟩ ≤ 100 →
      resultStep (some 100) none ⟨some ⟨5⟩⟩ = Except.ok ⟨5, [⟨5⟩]⟩) :=
  C7_insufficient_capacity_contributes_nothing argsBase envSimple ⟨0, [], 5⟩
    ⟨some ⟨5⟩⟩ ⟨5⟩ 100 (by decide)

end BosFund

namespace BosFund

/-- C8: when multi-path is unsupported or an out_through peer is pinned, the
accumulator is skipped, yielding a plain empty value with zero prober calls,
and a successful in-budget single-path probe makes the result exactly that
route and its fee, with only the version and probe collaborators invoked. -/
theorem C8_skipped_accumulator_single_result (args : Args) (env : Env)
    (r : Route) (m : Nat)
    (hskip : (∃ e, env.walletVersionQuery = Except.error e) ∨
      jsTruthyStr args.out_through = true)
    (hval : validate args = Except.ok ())
    (hprobe : env.probeOutcome = Except.ok ⟨some r⟩)
    (hfee : args.max_fee = some m)
    (hbudget : r.fee ≤ m) :
    (jsTruthyStr args.out_through = true →
      getMultiLimits true args.out_through args.max_paths env.multiResps =
        (some (Except.ok none), 0)) ∧
    getMultiLimits false args.out_through args.max_paths env.multiResps =
      (some (Except.ok none), 0) ∧
    getRoutesForFunding args env =
      ⟨some (Except.ok ⟨r.fee, [r]⟩), [Call.walletVersion, Call.executeProbe]⟩ := by
  have hgt : jsGtOptNat r.fee (some m) = false := by
    simp [jsGtOptNat]
    omega
  refine ⟨fun hot => getMultiLimits_pinned true _ _ _ hot, by simp [getMultiLimits], ?_⟩
  unfold getRoutesForFunding
  rw [hval]
  cases hq : env.walletVersionQuery with
  | error qe =>
    simp [getMultiSupport, hprobe, getMultiLimits, getMultiPaths, resultStep,
      chosenPaths, hfee, sumFees, hgt]
  | ok u =>
    have hot : jsTruthyStr args.out_through = true := by
      rcases hskip with ⟨e2, he2⟩ | hot
      · rw [hq] at he2
        cases he2
      · exact hot
    simp [getMultiSupport, hprobe, getMultiLimits_pinned true _ _ _ hot,
      getMultiPaths, resultStep, chosenPaths, hfee, sumFees, hgt]

/-- C8 witness: unsupported multi-path with a single route of fee 5 under a
budget of 100 returns exactly that route. -/
theorem C8_skipped_accumulator_witness :
    getMultiLimits false argsBase.out_through argsBase.max_paths
        envSimple.multiResps = (some (Except.ok none), 0) ∧
    getRoutesForFunding argsBase envSimple =
      ⟨some (Except.ok ⟨5, [⟨5⟩]⟩), [Call.walletVersion, Call.executeProbe]⟩ :=
  (C8_skipped_accumulator_single_result argsBase envSimple ⟨5⟩ 100
    (Or.inl ⟨⟨503, "NoVersion"⟩, rfl⟩) rfl rfl rfl (by decide)).2

/-- C9: the capability check always completes without error, its boolean is
true exactly when the wallet version query succeeded, and that boolean only
gates the accumulator: with a pinned out_through peer the request outcome is
independent of the query outcome. -/
theorem C9_capability_check_never_fails (q q2 : Except Err Unit) (args : Args)
    (env : Env) (hpin : jsTruthyStr args.out_through = true) :
    (∃ b : Bool, getMultiSupport q = Except.ok ⟨b⟩ ∧
      (b = true ↔ q = Except.ok ())) ∧
    getRoutesForFunding args { env with walletVersionQuery := q2 } =
      getRoutesForFunding args env := by
  constructor
  · cases q with
    | ok u =>
      cases u
      exact ⟨true, rfl, by simp⟩
    | error e =>
      exact ⟨false, rfl, by simp [getMultiSupport]⟩
  · cases hv : validate args with
    | error e => simp [getRoutesForFunding, hv]
    | ok u =>
      cases u
      unfold getRoutesForFunding
      rw [hv]
      cases q2 <;> cases hq : env.walletVersionQuery <;>
        simp only [getMultiSupport, hq] <;>
        cases hp : env.probeOutcome <;>
          simp [hp, getMultiLimits_pinned _ _ _ _ hpin, getMultiPaths]

/-- C9 witness: with a pinned exit peer, a failing and a succeeding wallet
version query produce identical outcomes, and the check maps a failing query
to the boolean false without erroring. -/
theorem C9_capability_check_witness :
    (∃ b : Bool, getMultiSupport (Except.error ⟨503, "NoVersion"⟩) =
        Except.ok ⟨b⟩ ∧
      (b = true ↔ (Except.error ⟨503, "NoVersion"⟩ : Except Err Unit) =
        Except.ok ())) ∧
    getRoutesForFunding argsPinned
        { envSimple with walletVersionQuery := Except.ok () } =
      getRoutesForFunding argsPinned envSimple :=
  C9_capability_check_never_fails (Except.error ⟨503, "NoVersion"⟩)
    (Except.ok ()) argsPinned envSimple rfl

end BosFund
